import Mathlib

/-
  Verification development for the caddy meter module.

  The Go sources are shallowly embedded:
  * metric.go        : Label, Metric, the metric-type string constants.
  * meter.go         : UnmarshalCaddyfile (Caddyfile parsing of metric
                       definitions) and Provision (binding definitions to
                       backend collectors).
  * the handler file : report, responseWriter (WriteHeader / Write),
                       ServeHTTP (immediate and deferred recording).

  Go float64 values are modelled as rationals (no claim here depends on
  floating-point rounding).  External collaborators (the Caddyfile token
  dispenser, the placeholder replacer, strconv, the prometheus registry,
  the downstream handler and the wall clock) are modelled explicitly as
  data the embedded functions consume.
-/

/-- Metric kind constant from metric.go (MetricTypeCounter). -/
def MetricTypeCounter : String := "counter"

/-- Metric kind constant from metric.go (MetricTypeHistogram). -/
def MetricTypeHistogram : String := "histogram"

/-- Label definition from meter.go: name, optional matcher, value template. -/
structure Label where
  Name : String := ""
  Matcher : String := ""
  Value : String := ""
  deriving Repr, DecidableEq

/-- Metric definition from metric.go.  The Go field `Type` is spelled
`type` here (`Type` is reserved in Lean).  The prometheus CounterVec /
HistogramVec pointers are modelled as numeric handles into the backend
registry model (`none` = Go nil pointer). -/
structure Metric where
  type : String := ""
  Name : String := ""
  ExportName : String := ""
  Description : String := ""
  Labels : List Label := []
  Buckets : List Rat := []
  AfterResponse : Bool := false
  Value : String := ""
  requestCounter : Option Nat := none
  responseTime : Option Nat := none
  deriving Repr, DecidableEq

/-- The meter app module from meter.go.  The Go `map[string]*Metric` is
modelled as an insertion-ordered association list. -/
structure MeterModule where
  Metrics : List (String × Metric)
  deriving Repr, DecidableEq

deriving instance DecidableEq for Except

/-- Numeric value of a list of decimal digit characters. -/
def digitsVal (cs : List Char) : Nat :=
  cs.foldl (fun a c => a * 10 + (c.toNat - 48)) 0

/-- Modelled from the collaborator strconv.ParseFloat (wrapped by
meter.go's parseFloat): parses an unsigned decimal literal, i.e. digits
with an optional fractional part, into a rational. -/
def parseFloatCore (cs : List Char) : Option Rat :=
  if (cs.takeWhile Char.isDigit).isEmpty then none
  else
    match cs.dropWhile Char.isDigit with
    | [] => some ((digitsVal (cs.takeWhile Char.isDigit) : Nat) : Rat)
    | '.' :: frac =>
      if (!frac.isEmpty) && frac.all Char.isDigit then
        some ((digitsVal (cs.takeWhile Char.isDigit) : Nat)
          + ((digitsVal frac : Nat) : Rat) / ((10 : Rat) ^ frac.length))
      else none
    | _ => none

/-- parseFloat from meter.go: a wrapper over strconv.ParseFloat; handles
an optional leading sign, errors on anything that is not a decimal
number. -/
def parseFloat (s : String) : Except String Rat :=
  match s.data with
  | '-' :: rest =>
    match parseFloatCore rest with
    | some v => Except.ok (-v)
    | none => Except.error ("invalid syntax: " ++ s)
  | '+' :: rest =>
    match parseFloatCore rest with
    | some v => Except.ok v
    | none => Except.error ("invalid syntax: " ++ s)
  | cs =>
    match parseFloatCore cs with
    | some v => Except.ok v
    | none => Except.error ("invalid syntax: " ++ s)

/-- True when a parse attempt failed. -/
def isErr (x : Except String Rat) : Bool :=
  match x with
  | Except.error _ => true
  | Except.ok _ => false

/-- The float value the Go code ends up with after a parse attempt:
the parsed value, or 0.0 on error (ServeHTTP's parse-or-zero rule). -/
def parsedFloat (s : String) : Rat :=
  match parseFloat s with
  | Except.ok v => v
  | Except.error _ => 0

/-- Opening curly brace character (written via its code point so that no
string literal in this file contains a brace). -/
def openBraceChar : Char := Char.ofNat 123

/-- Closing curly brace character. -/
def closeBraceChar : Char := Char.ofNat 125

/-- Opening curly brace as a one-character token string. -/
def openCurlyBrace : String := String.mk [openBraceChar]

/-- Closing curly brace as a one-character token string. -/
def closeCurlyBrace : String := String.mk [closeBraceChar]

/-- Modelled from the collaborator caddy.Replacer: a table of placeholder
values.  `Set` prepends, lookup takes the first match, so later `Set`
calls shadow earlier ones, matching the real replacer's map update. -/
structure Replacer where
  table : List (String × String)
  deriving Repr, DecidableEq

/-- First-match lookup in the placeholder table. -/
def replacerGet : List (String × String) → String → Option String
  | [], _ => none
  | (k, v) :: rest, key => if k = key then some v else replacerGet rest key

/-- Replacer.Get: the value bound to a placeholder name, if any. -/
def Replacer.get (r : Replacer) (key : String) : Option String :=
  replacerGet r.table key

/-- Replacer.Set: bind a placeholder name to a value. -/
def Replacer.set (r : Replacer) (key v : String) : Replacer :=
  ⟨(key, v) :: r.table⟩

/-- Substitution of one placeholder occurrence.  For ReplaceAll
(`keepUnknown = false`) unknown or empty placeholders become the
fallback; for ReplaceKnown (`keepUnknown = true`) unknown placeholders
are kept verbatim. -/
def substPlaceholder (keepUnknown : Bool) (r : Replacer) (emptyVal key : String) :
    List Char :=
  match r.get key with
  | some v => if v = "" then emptyVal.data else v.data
  | none =>
    if keepUnknown then openBraceChar :: (key.data ++ [closeBraceChar])
    else emptyVal.data

/-- Character-level scan replacing brace-delimited placeholders.  The
second argument accumulates (reversed) the characters of a placeholder
currently being read, `none` when outside a placeholder. -/
def replaceChars (keepUnknown : Bool) (r : Replacer) (emptyVal : String) :
    List Char → Option (List Char) → List Char
  | [], none => []
  | [], some acc => openBraceChar :: acc.reverse
  | c :: rest, none =>
    if c = openBraceChar then replaceChars keepUnknown r emptyVal rest (some [])
    else c :: replaceChars keepUnknown r emptyVal rest none
  | c :: rest, some acc =>
    if c = closeBraceChar then
      substPlaceholder keepUnknown r emptyVal (String.mk acc.reverse)
        ++ replaceChars keepUnknown r emptyVal rest none
    else replaceChars keepUnknown r emptyVal rest (some (c :: acc))

/-- Replacer.ReplaceAll: every placeholder is replaced; unknown or empty
ones become `emptyVal`. -/
def Replacer.replaceAll (r : Replacer) (input emptyVal : String) : String :=
  String.mk (replaceChars false r emptyVal input.data none)

/-- Replacer.ReplaceKnown: known placeholders are replaced (empty values
become `emptyVal`); unknown placeholders stay in the output. -/
def Replacer.replaceKnown (r : Replacer) (input emptyVal : String) : String :=
  String.mk (replaceChars true r emptyVal input.data none)

/-- One token of the Caddyfile token stream: its text and whether it sits
on the same line as the previous token (the dispenser's line check). -/
structure Token where
  val : String
  sameLine : Bool
  deriving Repr, DecidableEq

/-- Modelled from the collaborator caddyfile.Dispenser: a cursor over a
token list plus a block-nesting counter.  `cursor = 0` is the initial
"before the first token" position (Go's cursor = -1); the token at
1-based position i is current when `cursor = i`. -/
structure Dispenser where
  tokens : List Token
  cursor : Nat := 0
  nesting : Nat := 0
  deriving Repr, DecidableEq

/-- Dispenser.Val: text of the current token, "" out of range. -/
def Dispenser.Val (d : Dispenser) : String :=
  if d.cursor = 0 then ""
  else
    match d.tokens.get? (d.cursor - 1) with
    | some t => t.val
    | none => ""

/-- Dispenser.Next: advance to the next token on any line. -/
def Dispenser.Next (d : Dispenser) : Bool × Dispenser :=
  if d.cursor < d.tokens.length then (true, { d with cursor := d.cursor + 1 })
  else (false, d)

/-- Dispenser.nextOnSameLine: advance only when the next token is on the
same line as the current one (from the initial position it always
advances, like Go's cursor < 0 branch). -/
def Dispenser.nextOnSameLine (d : Dispenser) : Bool × Dispenser :=
  if d.cursor = 0 then (true, { d with cursor := 1 })
  else if d.tokens.length ≤ d.cursor then (false, d)
  else
    match d.tokens.get? d.cursor with
    | some t =>
      if t.sameLine then (true, { d with cursor := d.cursor + 1 }) else (false, d)
    | none => (false, d)

/-- Dispenser.NextArg: an argument is a next token on the same line. -/
def Dispenser.NextArg (d : Dispenser) : Bool × Dispenser :=
  d.nextOnSameLine

/-- Dispenser.NextBlock: iterate tokens of a block nested more deeply
than `level`; opens a block on an opening brace on the same line and
tracks the nesting counter across braces. -/
def Dispenser.NextBlock (d : Dispenser) (level : Nat) : Bool × Dispenser :=
  if level < d.nesting then
    if (d.Next).1 = false then (false, (d.Next).2)
    else
      if (d.Next).2.Val = closeCurlyBrace then
        (level < (d.Next).2.nesting - 1, { (d.Next).2 with nesting := (d.Next).2.nesting - 1 })
      else if (d.Next).2.Val = openCurlyBrace then
        (level < (d.Next).2.nesting + 1, { (d.Next).2 with nesting := (d.Next).2.nesting + 1 })
      else (level < (d.Next).2.nesting, (d.Next).2)
  else
    if (d.nextOnSameLine).1 = false then (false, (d.nextOnSameLine).2)
    else if (d.nextOnSameLine).2.Val ≠ openCurlyBrace then
      (false, { (d.nextOnSameLine).2 with cursor := (d.nextOnSameLine).2.cursor - 1 })
    else
      if ((d.nextOnSameLine).2.Next).1 = false then (false, ((d.nextOnSameLine).2.Next).2)
      else if ((d.nextOnSameLine).2.Next).2.Val = closeCurlyBrace then
        (false, ((d.nextOnSameLine).2.Next).2)
      else
        (true, { ((d.nextOnSameLine).2.Next).2 with
                   nesting := ((d.nextOnSameLine).2.Next).2.nesting + 1 })

/-- The bucket-collecting loop inside UnmarshalCaddyfile's `buckets`
case (meter.go): read the current token, parse it as a float (a parse
failure is a fatal config error), append, continue while another
argument follows on the same line.  The fuel argument bounds the
iteration count of the Go `for` loop. -/
def parseBucketsLoop : Nat → Dispenser → List Rat → Except String (List Rat × Dispenser)
  | 0, _, _ => Except.error "out of fuel"
  | Nat.succ fuel, d, buckets =>
    if d.Val = "" then Except.ok (buckets, d)
    else
      match parseFloat d.Val with
      | Except.error _ => Except.error ("invalid bucket value: " ++ d.Val)
      | Except.ok f =>
        if (d.NextArg).1 = true then parseBucketsLoop fuel (d.NextArg).2 (buckets ++ [f])
        else Except.ok (buckets ++ [f], (d.NextArg).2)

/-- parseLabelsBlock from meter.go: read `name value` pairs at nesting
level 2 until the block closes. -/
def parseLabelsBlock : Nat → Dispenser → List Label → Except String (List Label × Dispenser)
  | 0, _, _ => Except.error "out of fuel"
  | Nat.succ fuel, d, labels =>
    if (d.NextBlock 2).1 = false then Except.ok (labels, (d.NextBlock 2).2)
    else if (d.NextBlock 2).2.Val = closeCurlyBrace then Except.ok (labels, (d.NextBlock 2).2)
    else
      if ((d.NextBlock 2).2.NextArg).1 = false then Except.error "label requires a value"
      else
        parseLabelsBlock fuel ((d.NextBlock 2).2.NextArg).2
          (labels ++ [{ Name := (d.NextBlock 2).2.Val,
                        Value := ((d.NextBlock 2).2.NextArg).2.Val }])

/-- One arm of the option switch inside UnmarshalCaddyfile's metric
block loop (meter.go): description, name, after_response, value, labels,
buckets, or a fatal unknown-option error. -/
def optionStep (fuel : Nat) (d : Dispenser) (m : Metric) :
    Except String (Metric × Dispenser) :=
  if d.Val = "description" then
    if (d.NextArg).1 = false then Except.error "description requires a value"
    else Except.ok ({ m with Description := (d.NextArg).2.Val }, (d.NextArg).2)
  else if d.Val = "name" then
    if (d.NextArg).1 = false then Except.error "name requires a value"
    else Except.ok ({ m with ExportName := (d.NextArg).2.Val }, (d.NextArg).2)
  else if d.Val = "after_response" then
    Except.ok ({ m with AfterResponse := true }, d)
  else if d.Val = "value" then
    if (d.NextArg).1 = false then Except.error "value requires a value"
    else Except.ok ({ m with Value := (d.NextArg).2.Val }, (d.NextArg).2)
  else if d.Val = "labels" then
    match parseLabelsBlock fuel d [] with
    | Except.error e => Except.error e
    | Except.ok (labels, d1) => Except.ok ({ m with Labels := labels }, d1)
  else if d.Val = "buckets" then
    if m.type ≠ MetricTypeHistogram then Except.error "buckets only valid for histogram"
    else if (d.NextArg).1 = false then Except.error "buckets requires a list of values"
    else
      match parseBucketsLoop fuel (d.NextArg).2 [] with
      | Except.error e => Except.error e
      | Except.ok (buckets, d1) => Except.ok ({ m with Buckets := buckets }, d1)
  else Except.error ("unexpected block: " ++ d.Val)

/-- The option loop of one metric block in UnmarshalCaddyfile: run
option arms while tokens remain at nesting level above 1. -/
def parseOptionsLoop : Nat → Dispenser → Metric → Except String (Metric × Dispenser)
  | 0, _, _ => Except.error "out of fuel"
  | Nat.succ fuel, d, m =>
    if d.Val = "" then Except.ok (m, d)
    else
      match optionStep fuel d m with
      | Except.error e => Except.error e
      | Except.ok (m1, d1) =>
        if (d1.NextBlock 1).1 = true then parseOptionsLoop fuel (d1.NextBlock 1).2 m1
        else Except.ok (m1, (d1.NextBlock 1).2)

/-- The fresh metric of UnmarshalCaddyfile's top-level arm:
`Metric{Type: metricType}` with AfterResponse forced for histograms
("histogram metrics are always after response"), plus the name parsed
from the following argument. -/
def initMetric (metricType name : String) : Metric :=
  if metricType = MetricTypeHistogram then
    { type := metricType, Name := name, AfterResponse := true }
  else { type := metricType, Name := name }

/-- End of a metric block in UnmarshalCaddyfile: ExportName defaults to
Name when unset. -/
def exportDefault (m : Metric) : Metric :=
  if m.ExportName = "" then { m with ExportName := m.Name } else m

/-- The top-level loop of UnmarshalCaddyfile over `counter <name>` /
`histogram <name>` directives, accumulating the metric map (duplicate
names are a fatal config error). -/
def parseMetricsLoop : Nat → Dispenser → List (String × Metric) →
    Except String (List (String × Metric) × Dispenser)
  | 0, _, _ => Except.error "out of fuel"
  | Nat.succ fuel, d, mm =>
    if d.Val = "" then Except.ok (mm, d)
    else if d.Val = closeCurlyBrace then Except.ok (mm, d)
    else if d.Val = MetricTypeCounter ∨ d.Val = MetricTypeHistogram then
      if (d.NextArg).1 = false then Except.error "expected metric name"
      else if (d.NextArg).2.Val = "" then Except.error "metric name is required"
      else if (((d.NextArg).2.NextBlock 1)).1 = false then
        Except.error ("expected block for " ++ d.Val ++ " " ++ (d.NextArg).2.Val)
      else
        match parseOptionsLoop fuel ((d.NextArg).2.NextBlock 1).2
            (initMetric d.Val ((d.NextArg).2.Val)) with
        | Except.error e => Except.error e
        | Except.ok (m2, d3) =>
          if (List.find? (fun p => p.1 == m2.Name) mm).isSome then
            Except.error ("metric " ++ m2.Name ++ " already defined")
          else
            if (d3.Next).1 = true then
              parseMetricsLoop fuel (d3.Next).2 (mm ++ [(m2.Name, exportDefault m2)])
            else Except.ok (mm ++ [(m2.Name, exportDefault m2)], (d3.Next).2)
    else Except.error ("unexpected directive in meter: " ++ d.Val)

/-- MeterModule.UnmarshalCaddyfile from meter.go: reset the metric map,
enter the `meter` block and run the top-level loop.  The fuel passed to
the loops is an upper bound on the iterations the Go loops can make on
this token stream. -/
def UnmarshalCaddyfile (mm : MeterModule) (d : Dispenser) : Except String MeterModule :=
  if (d.Next).1 = false then Except.error "expected meter block"
  else if (((d.Next).2).NextBlock 0).1 = false then Except.error "expected block for meter"
  else
    match parseMetricsLoop (2 * d.tokens.length + 16) (((d.Next).2).NextBlock 0).2
        ({ mm with Metrics := [] }).Metrics with
    | Except.error e => Except.error e
    | Except.ok (metrics, _) => Except.ok { Metrics := metrics }

/-- One collector registered at the backend: export name, kind (the Go
dynamic type *CounterVec / *HistogramVec) and an opaque handle standing
for the collector pointer. -/
structure RegEntry where
  name : String
  kind : String
  handle : Nat
  deriving Repr, DecidableEq

/-- Modelled from the collaborator prometheus.Registry: the set of
registered collectors plus a fresh-handle counter.  Registration is
keyed by the export name (the fqName of the collector's descriptor;
help text and label names are assumed to agree, which is the case in
which Register reports AlreadyRegisteredError). -/
structure BackendRegistry where
  entries : List RegEntry
  nextHandle : Nat
  deriving Repr, DecidableEq

/-- Lookup of a registered collector by export name. -/
def registryFind (entries : List RegEntry) (name : String) : Option RegEntry :=
  List.find? (fun e => e.name == name) entries

/-- Result of prometheus Register: a fresh collector, or
AlreadyRegisteredError carrying the existing collector (its kind is the
dynamic type of ExistingCollector). -/
inductive RegisterResult where
  | created (handle : Nat) (reg : BackendRegistry)
  | alreadyRegistered (existingKind : String) (existingHandle : Nat) (reg : BackendRegistry)
  deriving Repr, DecidableEq

/-- registry.Register for a collector under `name` of kind `kind`. -/
def registerCollector (reg : BackendRegistry) (name kind : String) : RegisterResult :=
  match registryFind reg.entries name with
  | some e => RegisterResult.alreadyRegistered e.kind e.handle reg
  | none =>
    RegisterResult.created reg.nextHandle
      ⟨reg.entries ++ [⟨name, kind, reg.nextHandle⟩], reg.nextHandle + 1⟩

/-- Outcome of provisioning one metric: success (with the collector
handle stored in the metric), an ordinary returned error, or a Go
runtime panic (the unchecked type assertion on ExistingCollector). -/
inductive ProvisionOutcome where
  | ok (m : Metric) (reg : BackendRegistry)
  | goError (msg : String)
  | panics
  deriving Repr, DecidableEq

/-- The body of MeterModule.Provision's loop (meter.go lines 63-108):
build a collector of the metric's kind, register it, and on
AlreadyRegisteredError adopt the existing collector through an
unchecked type assertion — which panics when the existing collector has
the other kind.  Unknown kinds return an ordinary error. -/
def provisionMetric (reg : BackendRegistry) (m : Metric) : ProvisionOutcome :=
  if m.type = MetricTypeCounter then
    match registerCollector reg m.ExportName MetricTypeCounter with
    | RegisterResult.created h reg1 =>
      ProvisionOutcome.ok { m with requestCounter := some h } reg1
    | RegisterResult.alreadyRegistered k h reg1 =>
      if k = MetricTypeCounter then
        ProvisionOutcome.ok { m with requestCounter := some h } reg1
      else ProvisionOutcome.panics
  else if m.type = MetricTypeHistogram then
    match registerCollector reg m.ExportName MetricTypeHistogram with
    | RegisterResult.created h reg1 =>
      ProvisionOutcome.ok { m with responseTime := some h } reg1
    | RegisterResult.alreadyRegistered k h reg1 =>
      if k = MetricTypeHistogram then
        ProvisionOutcome.ok { m with responseTime := some h } reg1
      else ProvisionOutcome.panics
  else ProvisionOutcome.goError ("unknown metric type: " ++ m.type)

/-- The metric with the existing collector handle adopted into the field
of its kind (requestCounter for counters, responseTime for histograms). -/
def adoptHandle (m : Metric) (h : Nat) : Metric :=
  if m.type = MetricTypeCounter then { m with requestCounter := some h }
  else { m with responseTime := some h }

/-- State of the responseWriter wrapper from the handler file: the first
two fields of the Go struct are the embedded underlying writer (kept
outside the model) ; statusCode and responseLength start at Go's zero
values. -/
structure ResponseWriterState where
  statusCode : Int := 0
  responseLength : Int := 0
  deriving Repr, DecidableEq

/-- responseWriter.WriteHeader: record the status code (every call
overwrites) and pass the call through to the underlying writer. -/
def writeHeaderImpl (w : ResponseWriterState) (statusCode : Int) : ResponseWriterState :=
  { w with statusCode := statusCode }

/-- responseWriter.Status. -/
def statusImpl (w : ResponseWriterState) : Int :=
  w.statusCode

/-- Result of responseWriter.Write: the new wrapper state, the byte
slice handed to the underlying writer, and the returned (n, err). -/
structure WriteOut where
  w : ResponseWriterState
  forwarded : List Nat
  n : Int
  err : Option String
  deriving Repr, DecidableEq

/-- responseWriter.Write: forward the byte slice to the underlying
writer, add the count it reports to responseLength, and return its
(n, err) unchanged.  `underlying` models the embedded
http.ResponseWriter's Write. -/
def writeImpl (w : ResponseWriterState) (b : List Nat)
    (underlying : List Nat → Int × Option String) : WriteOut :=
  { w := { w with responseLength := w.responseLength + (underlying b).1 },
    forwarded := b,
    n := (underlying b).1,
    err := (underlying b).2 }

/-- One interaction of the downstream handler with the wrapped response
writer: a WriteHeader call, or a Write of a byte slice for which the
underlying writer reports (retN, retErr). -/
inductive WriterEvent where
  | writeHeader (code : Int)
  | write (b : List Nat) (retN : Int) (retErr : Option String)
  deriving Repr, DecidableEq

/-- Effect of one writer interaction on the wrapper state. -/
def applyEvent (w : ResponseWriterState) : WriterEvent → ResponseWriterState
  | WriterEvent.writeHeader c => writeHeaderImpl w c
  | WriterEvent.write b retN retErr => (writeImpl w b (fun _ => (retN, retErr))).w

/-- Wrapper state after the downstream handler's writer interactions. -/
def runEvents (w : ResponseWriterState) : List WriterEvent → ResponseWriterState
  | [] => w
  | e :: rest => runEvents (applyEvent w e) rest

/-- The downstream handler (caddyhttp.Handler) as observed by ServeHTTP:
its interactions with the response writer, the wall-clock seconds it
takes (the external clock), and the error value it returns. -/
structure NextHandler where
  events : List WriterEvent
  durationSeconds : Rat
  result : Option String
  deriving Repr, DecidableEq

/-- A call to a bound collector: CounterVec ... .Add or
HistogramVec ... .Observe with positional label values. -/
inductive MetricEvent where
  | add (labelValues : List String) (value : Rat)
  | observe (labelValues : List String) (value : Rat)
  deriving Repr, DecidableEq

/-- The label values UseMeter.report resolves: each label's value
template through Replacer.ReplaceKnown with fallback "<empty>". -/
def labelValuesOf (m : Metric) (replacer : Replacer) : List String :=
  m.Labels.map (fun l => replacer.replaceKnown l.Value "<empty>")

/-- UseMeter.report: resolve label values, then dispatch on kind — a
counter value of exactly 0 is replaced by 1 before Add; a histogram
value goes to Observe unchanged; other kinds fall through the switch
and record nothing. -/
def report (m : Metric) (replacer : Replacer) (value : Rat) : Option MetricEvent :=
  if m.type = MetricTypeCounter then
    some (MetricEvent.add (labelValuesOf m replacer) (if value = 0 then 1 else value))
  else if m.type = MetricTypeHistogram then
    some (MetricEvent.observe (labelValuesOf m replacer) value)
  else none

/-- ServeHTTP's template resolution for the `value` option: ReplaceAll
with fallback "1", parse as float, 0.0 on parse error. -/
def parseOrZero (r : Replacer) (tmpl : String) : Rat :=
  match parseFloat (r.replaceAll tmpl "1") with
  | Except.ok v => v
  | Except.error _ => 0

/-- The value ServeHTTP resolves on the immediate (not after-response)
path: starts at 1.0; an explicit template is parsed (or zero); absent a
template a histogram gets 0.0. -/
def immediateValue (m : Metric) (r : Replacer) : Rat :=
  if m.Value ≠ "" then parseOrZero r m.Value
  else if m.type = MetricTypeHistogram then 0
  else 1

/-- The value ServeHTTP resolves on the deferred path: starts at 0.0; an
explicit template is parsed (or zero); absent a template a histogram
gets the measured elapsed seconds. -/
def deferredValue (m : Metric) (r : Replacer) (durationSeconds : Rat) : Rat :=
  if m.Value ≠ "" then parseOrZero r m.Value
  else if m.type = MetricTypeHistogram then durationSeconds
  else 0

/-- Decimal rendering of the elapsed seconds
(strconv.FormatFloat(d.Seconds(), 'f', -1, 64)), modelled as an exact
rendering of the rational. -/
def formatFloat (q : Rat) : String :=
  toString q.num ++ "/" ++ toString q.den

/-- The three placeholders ServeHTTP publishes after the downstream call
returns: response status, size and duration. -/
def publishReplacer (r : Replacer) (w : ResponseWriterState) (durationSeconds : Rat) :
    Replacer :=
  ((r.set "meter.response.status" (toString (statusImpl w))).set
      "meter.response.size" (toString w.responseLength)).set
    "meter.response.duration" (formatFloat durationSeconds)

/-- The replacer visible to value and label templates on the deferred
path: the request replacer extended with the three published
meter.response placeholders. -/
def deferredReplacer (r : Replacer) (next : NextHandler) : Replacer :=
  publishReplacer r (runEvents {} next.events) next.durationSeconds

/-- Observable outcome of one UseMeter.ServeHTTP call: the collector
call made (if any), the final replacer, the wrapper state, whether the
downstream handler was invoked, and the returned error value. -/
structure ServeResult where
  event : Option MetricEvent
  finalReplacer : Replacer
  writer : ResponseWriterState
  nextInvoked : Bool
  returned : Option String
  deriving Repr, DecidableEq

/-- UseMeter.ServeHTTP.  Immediate path (AfterResponse false): resolve
the value against the request replacer, report, then run the downstream
handler and return its result.  Deferred path: run the downstream
handler against the wrapping responseWriter while timing it, publish
the three meter.response placeholders, resolve the value, report, and
return the downstream result unchanged. -/
def serveHTTP (m : Metric) (replacer : Replacer) (next : NextHandler) : ServeResult :=
  if m.AfterResponse = false then
    { event := report m replacer (immediateValue m replacer),
      finalReplacer := replacer,
      writer := {},
      nextInvoked := true,
      returned := next.result }
  else
    { event := report m (deferredReplacer replacer next)
        (deferredValue m (deferredReplacer replacer next) next.durationSeconds),
      finalReplacer := deferredReplacer replacer next,
      writer := runEvents {} next.events,
      nextInvoked := true,
      returned := next.result }

/-- An empty placeholder table. -/
def rEmpty : Replacer := ⟨[]⟩

/-- A downstream handler that touches nothing and returns nil. -/
def nTrivial : NextHandler := ⟨[], 0, none⟩

/-- An immediate counter directive whose value template is the literal 0. -/
def mC1x : Metric := { type := MetricTypeCounter, Name := "c", ExportName := "c", Value := "0" }

/-- A deferred histogram directive with no value template and no labels. -/
def mC7x : Metric :=
  { type := MetricTypeHistogram, Name := "h", ExportName := "h", AfterResponse := true }

/-- A downstream handler that sets a status twice: 301 then 404. -/
def nC2x : NextHandler :=
  ⟨[WriterEvent.writeHeader 301, WriterEvent.writeHeader 404], 0, none⟩

/-- The code of the last WriteHeader call among the writer events. -/
def lastStatus : List WriterEvent → Option Int
  | [] => none
  | e :: rest =>
    match lastStatus rest with
    | some c => some c
    | none =>
      match e with
      | WriterEvent.writeHeader c => some c
      | WriterEvent.write _ _ _ => none

/-- A downstream handler that writes a body but never sets a status. -/
def nC3x : NextHandler := ⟨[WriterEvent.write [72, 105] 12 none], 1, none⟩

/-- A backend that already holds a histogram collector under name "m". -/
def regW4 : BackendRegistry := ⟨[⟨"m", MetricTypeHistogram, 7⟩], 8⟩

/-- A backend that already holds a counter collector under name "m". -/
def regW4b : BackendRegistry := ⟨[⟨"m", MetricTypeCounter, 7⟩], 8⟩

/-- A counter definition exporting under the name "m". -/
def mW4 : Metric := { type := MetricTypeCounter, Name := "m", ExportName := "m" }

/-- An immediate counter directive with the non-numeric template "abc". -/
def mC6x : Metric :=
  { type := MetricTypeCounter, Name := "c", ExportName := "c", Value := "abc" }

/-- A downstream handler taking half a second and returning an error. -/
def nC7x : NextHandler := ⟨[], (1 : Rat) / 2, some "boom"⟩

/-- The run of bucket tokens at the dispenser's current position: the
current token's text, then further arguments on the same line, stopping
at an empty current token — the token sequence the buckets loop
consumes, stated independently of the parsing itself. -/
def bucketTokens : Nat → Dispenser → List String
  | 0, _ => []
  | Nat.succ fuel, d =>
    if d.Val = "" then []
    else
      if (d.NextArg).1 = true then d.Val :: bucketTokens fuel (d.NextArg).2
      else [d.Val]

/-- A dispenser positioned on a buckets option with arguments 2 and 5. -/
def dW8 : Dispenser :=
  { tokens := [⟨"buckets", false⟩, ⟨"2", true⟩, ⟨"5", true⟩], cursor := 1 }

/-- The metric the buckets option produces on dW8. -/
def mW8out : Metric := { mC7x with Buckets := [2, 5] }

/-- The dispenser position after the buckets option on dW8. -/
def dW8out : Dispenser := { tokens := dW8.tokens, cursor := 3 }

/-- Token stream of a meter block declaring one histogram without
after_response: meter, open brace, histogram h1, open brace,
description x, close brace, close brace. -/
def dEx5 : Dispenser :=
  { tokens := [⟨"meter", false⟩, ⟨openCurlyBrace, true⟩,
               ⟨"histogram", false⟩, ⟨"h1", true⟩, ⟨openCurlyBrace, true⟩,
               ⟨"description", false⟩, ⟨"x", true⟩,
               ⟨closeCurlyBrace, false⟩, ⟨closeCurlyBrace, false⟩] }

/-- The histogram definition parsed from dEx5. -/
def mEx5 : Metric :=
  { type := MetricTypeHistogram, Name := "h1", ExportName := "h1",
    Description := "x", AfterResponse := true }

/-- The module state parsed from dEx5. -/
def outEx5 : MeterModule := ⟨[("h1", mEx5)]⟩

/-- parseOrZero yields 0 whenever the parse fails. -/
theorem parseOrZero_of_isErr (r : Replacer) (tmpl : String)
    (h : isErr (parseFloat (r.replaceAll tmpl "1")) = true) : parseOrZero r tmpl = 0 := by
  unfold parseOrZero
  cases hp : parseFloat (r.replaceAll tmpl "1") with
  | ok v => simp [isErr, hp] at h
  | error e => simp [hp]

/-- C1 counterexample: on a Counter directive whose explicit value
template resolves and parses to exactly 0.0, the value passed to Add is
1.0, not 0.0 — report's zero-to-one substitution applies to every zero,
including one produced by an explicit template. -/
theorem counterZeroTemplateCounterexample :
    (serveHTTP mC1x rEmpty nTrivial).event = some (MetricEvent.add [] 1) ∧
    (serveHTTP mC1x rEmpty nTrivial).event ≠ some (MetricEvent.add [] 0) := by
  refine ⟨rfl, ?_⟩
  decide

/-- C1 (amended): for every request on a Counter directive whose
explicit value template resolves and parses to exactly 0.0 (on either
path), the value passed to the collector's Add is 1.0: the substitution
of 0 to 1 in report applies to any counter value of zero, whether it
came from an explicit template or from the default-value path. -/
theorem counterZeroTemplateForcedToOne (m : Metric) (r : Replacer) (next : NextHandler)
    (hc : m.type = MetricTypeCounter) (hv : m.Value ≠ "")
    (him : m.AfterResponse = false → parseOrZero r m.Value = 0)
    (hdf : m.AfterResponse = true → parseOrZero (deferredReplacer r next) m.Value = 0) :
    (serveHTTP m r next).event
      = some (MetricEvent.add
          (labelValuesOf m (if m.AfterResponse then deferredReplacer r next else r)) 1) := by
  cases hAR : m.AfterResponse with
  | false =>
    have h0 := him hAR
    simp [serveHTTP, hAR, immediateValue, hv, h0, report, hc]
  | true =>
    have h0 := hdf hAR
    simp [serveHTTP, hAR, deferredValue, hv, h0, report, hc]

/-- C1 witness: the amended rule evaluated on the explicit-zero counter. -/
theorem counterZeroTemplateForcedToOneWitness :
    (serveHTTP mC1x rEmpty nTrivial).event
      = some (MetricEvent.add (labelValuesOf mC1x rEmpty) 1) :=
  counterZeroTemplateForcedToOne mC1x rEmpty nTrivial rfl (by decide) (by decide) (by decide)

/-- The wrapper's recorded status after a run of events is the last
WriteHeader argument (or the initial value when none occurred). -/
theorem runEvents_statusCode (evs : List WriterEvent) :
    ∀ w : ResponseWriterState,
      (runEvents w evs).statusCode = (lastStatus evs).getD w.statusCode := by
  induction evs with
  | nil => intro w; rfl
  | cons e rest ih =>
    intro w
    rw [runEvents, ih]
    cases hrest : lastStatus rest with
    | some c => simp [lastStatus, hrest]
    | none =>
      cases e with
      | writeHeader c => simp [lastStatus, hrest, applyEvent, writeHeaderImpl]
      | write b n err => simp [lastStatus, hrest, applyEvent, writeImpl]

/-- C2 counterexample: after WriteHeader(301) then WriteHeader(404), the
published response-status placeholder is "404" — the later call, not the
first one, is recorded. -/
theorem statusFirstWriteCounterexample :
    (serveHTTP mC7x rEmpty nC2x).finalReplacer.get "meter.response.status" = some "404" ∧
    (serveHTTP mC7x rEmpty nC2x).finalReplacer.get "meter.response.status" ≠ some "301" := by
  refine ⟨rfl, ?_⟩
  decide

/-- C2 (amended): for every deferred request, the status the wrapper
records and publishes as the response-status placeholder is the one of
the last WriteHeader call (0 when no call occurred): each call
overwrites the stored status code. -/
theorem statusLastWriteWins (m : Metric) (r : Replacer) (next : NextHandler)
    (hdef : m.AfterResponse = true) :
    (serveHTTP m r next).finalReplacer.get "meter.response.status"
      = some (toString ((lastStatus next.events).getD 0)) := by
  simp only [serveHTTP, hdef]
  rw [if_neg (by decide)]
  simp only [deferredReplacer, publishReplacer, Replacer.set, Replacer.get, replacerGet,
    statusImpl]
  rw [if_neg (by decide), if_neg (by decide), if_pos trivial, runEvents_statusCode]

/-- C2 witness: the amended rule evaluated on the 301-then-404 run. -/
theorem statusLastWriteWinsWitness :
    (serveHTTP mC7x rEmpty nC2x).finalReplacer.get "meter.response.status"
      = some (toString ((lastStatus nC2x.events).getD 0)) :=
  statusLastWriteWins mC7x rEmpty nC2x rfl

/-- C3 (code-bug evidence): on a deferred request whose downstream
handler never calls WriteHeader, the published response-status
placeholder is "0", not "200" — the wrapper's statusCode keeps its Go
zero value, although the actual HTTP response carries status 200. -/
theorem statusUnsetPublishesZero :
    (serveHTTP mC7x rEmpty nC3x).finalReplacer.get "meter.response.status" = some "0" ∧
    (serveHTTP mC7x rEmpty nC3x).finalReplacer.get "meter.response.status" ≠ some "200" := by
  refine ⟨rfl, ?_⟩
  decide

/-- C4 counterexample: provisioning a counter whose export name is held
by an existing histogram collector panics (unchecked type assertion on
ExistingCollector) instead of returning an ordinary provisioning
error. -/
theorem provisionKindMismatchPanics :
    provisionMetric regW4 mW4 = ProvisionOutcome.panics ∧
    provisionMetric regW4 mW4 ≠ ProvisionOutcome.ok (adoptHandle mW4 7) regW4 := by
  refine ⟨rfl, ?_⟩
  decide

/-- C4 (amended): for every definition whose export name is already
registered at the backend, provisioning adopts the existing collector
handle and succeeds when the existing collector's kind matches the
definition's kind; when the kinds mismatch, provisioning panics (a
crash caused by the unchecked type assertion), not an ordinary
provisioning error. -/
theorem provisionAdoptionOrPanic (reg : BackendRegistry) (m : Metric) (e : RegEntry)
    (hk : m.type = MetricTypeCounter ∨ m.type = MetricTypeHistogram)
    (hfind : registryFind reg.entries m.ExportName = some e) :
    (e.kind = m.type →
      provisionMetric reg m = ProvisionOutcome.ok (adoptHandle m e.handle) reg) ∧
    (e.kind ≠ m.type → provisionMetric reg m = ProvisionOutcome.panics) := by
  cases hk with
  | inl hc =>
    constructor
    · intro hek
      have hek' : e.kind = MetricTypeCounter := hek.trans hc
      simp [provisionMetric, hc, registerCollector, hfind, adoptHandle, hek']
    · intro hek
      rw [hc] at hek
      simp [provisionMetric, hc, registerCollector, hfind, hek]
  | inr hh =>
    constructor
    · intro hek
      have hek' : e.kind = MetricTypeHistogram := hek.trans hh
      simp [provisionMetric, hh, registerCollector, hfind, adoptHandle, hek',
        MetricTypeCounter, MetricTypeHistogram]
    · intro hek
      rw [hh] at hek
      simp only [MetricTypeHistogram] at hek
      simp [provisionMetric, hh, registerCollector, hfind, hek,
        MetricTypeCounter, MetricTypeHistogram]

/-- C4 witness: matching kinds adopt the existing handle 7. -/
theorem provisionAdoptionOrPanicWitness :
    provisionMetric regW4b mW4 = ProvisionOutcome.ok (adoptHandle mW4 7) regW4b :=
  (provisionAdoptionOrPanic regW4b mW4 ⟨"m", MetricTypeCounter, 7⟩
    (Or.inl rfl) (by decide)).1 rfl

/-- C6 counterexample: a counter directive whose template resolves to
the non-numeric "abc" records 1.0 at the collector, not 0.0 — the
resolved value falls back to 0.0 but report then substitutes 1 for the
zero. -/
theorem parseFailureCounterexample :
    (serveHTTP mC6x rEmpty nTrivial).event = some (MetricEvent.add [] 1) ∧
    (serveHTTP mC6x rEmpty nTrivial).event ≠ some (MetricEvent.add [] 0) := by
  refine ⟨rfl, ?_⟩
  decide

/-- C6 (amended): for every request on a directive whose value template
resolves to a string that does not parse as a float, the resolved value
falls back to 0.0 (a Histogram observes 0.0, while a Counter's zero is
substituted to 1.0 before Add); the downstream handler is still invoked,
its result is returned unchanged, and the parse failure never surfaces
as an error. -/
theorem parseFailureFallsBack (m : Metric) (r : Replacer) (next : NextHandler)
    (hv : m.Value ≠ "")
    (him : m.AfterResponse = false → isErr (parseFloat (r.replaceAll m.Value "1")) = true)
    (hdf : m.AfterResponse = true →
      isErr (parseFloat ((deferredReplacer r next).replaceAll m.Value "1")) = true) :
    (m.AfterResponse = false → immediateValue m r = 0) ∧
    (m.AfterResponse = true →
      deferredValue m (deferredReplacer r next) next.durationSeconds = 0) ∧
    (m.type = MetricTypeHistogram →
      (serveHTTP m r next).event = some (MetricEvent.observe
        (labelValuesOf m (if m.AfterResponse then deferredReplacer r next else r)) 0)) ∧
    (m.type = MetricTypeCounter →
      (serveHTTP m r next).event = some (MetricEvent.add
        (labelValuesOf m (if m.AfterResponse then deferredReplacer r next else r)) 1)) ∧
    (serveHTTP m r next).nextInvoked = true ∧
    (serveHTTP m r next).returned = next.result := by
  have himv : m.AfterResponse = false → immediateValue m r = 0 := by
    intro h0
    simp only [immediateValue, if_pos hv]
    exact parseOrZero_of_isErr r m.Value (him h0)
  have hdfv : m.AfterResponse = true →
      deferredValue m (deferredReplacer r next) next.durationSeconds = 0 := by
    intro h1
    simp only [deferredValue, if_pos hv]
    exact parseOrZero_of_isErr _ m.Value (hdf h1)
  refine ⟨himv, hdfv, ?_, ?_, ?_, ?_⟩
  · intro hh
    cases hAR : m.AfterResponse with
    | false => simp [serveHTTP, hAR, himv hAR, report, hh, MetricTypeCounter,
        MetricTypeHistogram]
    | true => simp [serveHTTP, hAR, hdfv hAR, report, hh, MetricTypeCounter,
        MetricTypeHistogram]
  · intro hc
    cases hAR : m.AfterResponse with
    | false => simp [serveHTTP, hAR, himv hAR, report, hc]
    | true => simp [serveHTTP, hAR, hdfv hAR, report, hc]
  · cases hAR : m.AfterResponse with
    | false => simp [serveHTTP, hAR]
    | true => simp [serveHTTP, hAR]
  · cases hAR : m.AfterResponse with
    | false => simp [serveHTTP, hAR]
    | true => simp [serveHTTP, hAR]

/-- C6 witness: the amended rule evaluated on the "abc" counter. -/
theorem parseFailureFallsBackWitness :
    (serveHTTP mC6x rEmpty nTrivial).event
      = some (MetricEvent.add (labelValuesOf mC6x rEmpty) 1) :=
  (parseFailureFallsBack mC6x rEmpty nTrivial (by decide) (by decide)
    (by decide)).2.2.2.1 rfl

/-- C7: for every deferred request with no value template, a Histogram
observes exactly the measured elapsed seconds of the downstream call,
and a Counter's default value before dispatch is 0.0. -/
theorem deferredDefaultValue (m : Metric) (r : Replacer) (next : NextHandler)
    (hdef : m.AfterResponse = true) (hv : m.Value = "") :
    (m.type = MetricTypeHistogram →
      (serveHTTP m r next).event = some (MetricEvent.observe
        (labelValuesOf m (deferredReplacer r next)) next.durationSeconds)) ∧
    (m.type = MetricTypeCounter →
      deferredValue m (deferredReplacer r next) next.durationSeconds = 0) := by
  constructor
  · intro hh
    simp [serveHTTP, hdef, deferredValue, hv, report, hh, MetricTypeCounter,
      MetricTypeHistogram]
  · intro hc
    simp [deferredValue, hv, hc, MetricTypeCounter, MetricTypeHistogram]

/-- C7 witness: the observed value is the elapsed half second. -/
theorem deferredDefaultValueWitness :
    (serveHTTP mC7x rEmpty nC7x).event = some (MetricEvent.observe
      (labelValuesOf mC7x (deferredReplacer rEmpty nC7x)) nC7x.durationSeconds) :=
  (deferredDefaultValue mC7x rEmpty nC7x rfl rfl).1 rfl

/-- C9: UnmarshalCaddyfile resets the metric map before parsing, so its
result is the same for any two prior module states — definitions from an
earlier parse are discarded, never merged. -/
theorem unmarshalIndependentOfPriorState (mm1 mm2 : MeterModule) (d : Dispenser) :
    UnmarshalCaddyfile mm1 d = UnmarshalCaddyfile mm2 d := rfl

/-- C10: every Write adds exactly the byte count the underlying writer
reports to the running response length (also on short or failed writes),
leaves the status untouched, forwards the byte slice unchanged, and
returns the underlying writer's (n, err) unchanged. -/
theorem writeForwardsExactly (w : ResponseWriterState) (b : List Nat)
    (underlying : List Nat → Int × Option String) :
    (writeImpl w b underlying).w.responseLength = w.responseLength + (underlying b).1 ∧
    (writeImpl w b underlying).w.statusCode = w.statusCode ∧
    (writeImpl w b underlying).forwarded = b ∧
    (writeImpl w b underlying).n = (underlying b).1 ∧
    (writeImpl w b underlying).err = (underlying b).2 :=
  ⟨rfl, rfl, rfl, rfl, rfl⟩

/-- A successful buckets loop returns the accumulated list extended with
exactly the floats of the token run, in source order, and every token of
the run parses. -/
theorem parseBucketsLoop_spec :
    ∀ (fuel : Nat) (d : Dispenser) (acc res : List Rat) (d1 : Dispenser),
      parseBucketsLoop fuel d acc = Except.ok (res, d1) →
      res = acc ++ (bucketTokens fuel d).map parsedFloat ∧
      ∀ s ∈ bucketTokens fuel d, isErr (parseFloat s) = false := by
  intro fuel
  induction fuel with
  | zero =>
    intro d acc res d1 h
    simp [parseBucketsLoop] at h
  | succ n ih =>
    intro d acc res d1 h
    rw [parseBucketsLoop] at h
    by_cases hv : d.Val = ""
    · rw [if_pos hv] at h
      simp only [Except.ok.injEq, Prod.mk.injEq] at h
      obtain ⟨h1, _⟩ := h
      subst h1
      simp [bucketTokens, hv]
    · rw [if_neg hv] at h
      cases hpf : parseFloat d.Val with
      | error e => rw [hpf] at h; simp at h
      | ok f =>
        rw [hpf] at h
        simp only at h
        by_cases hn : (d.NextArg).1 = true
        · rw [if_pos hn] at h
          obtain ⟨h1, h2⟩ := ih _ _ _ _ h
          have hbt : bucketTokens (Nat.succ n) d = d.Val :: bucketTokens n (d.NextArg).2 := by
            rw [bucketTokens, if_neg hv, if_pos hn]
          have hpv : parsedFloat d.Val = f := by
            unfold parsedFloat; rw [hpf]
          constructor
          · rw [hbt, h1]
            simp [hpv]
          · intro s hs
            rw [hbt] at hs
            rcases List.mem_cons.mp hs with hs1 | hs2
            · subst hs1; simp [isErr, hpf]
            · exact h2 s hs2
        · rw [if_neg hn] at h
          simp only [Except.ok.injEq, Prod.mk.injEq] at h
          obtain ⟨h1, _⟩ := h
          subst h1
          have hbt : bucketTokens (Nat.succ n) d = [d.Val] := by
            rw [bucketTokens, if_neg hv, if_neg hn]
          constructor
          · rw [hbt]
            simp only [List.map]
            unfold parsedFloat
            rw [hpf]
          · intro s hs
            rw [hbt] at hs
            rcases List.mem_singleton.mp hs with rfl
            simp [isErr, hpf]

/-- C8: for a histogram metric block positioned at a buckets option, a
successful parse stores as the definition's buckets exactly the parsed
values of the argument token run, in source order — no sorting,
deduplication or reordering — and every token of the run parses as a
float. -/
theorem bucketsPreserveOrder (fuel : Nat) (d : Dispenser) (m m1 : Metric) (d1 : Dispenser)
    (hhist : m.type = MetricTypeHistogram)
    (hval : d.Val = "buckets")
    (h : optionStep fuel d m = Except.ok (m1, d1)) :
    m1.Buckets = (bucketTokens fuel (d.NextArg).2).map parsedFloat ∧
    ∀ s ∈ bucketTokens fuel (d.NextArg).2, isErr (parseFloat s) = false := by
  rw [optionStep] at h
  repeat' split at h
  all_goals try simp_all
  rename_i x buckets d2 harg hb
  obtain ⟨hm, hd⟩ := h
  subst hm
  obtain ⟨hs1, hs2⟩ := parseBucketsLoop_spec fuel (d.NextArg).2 [] buckets d1 hb
  exact ⟨by simpa using hs1, hs2⟩

/-- C8 witness: the parsed buckets of dW8 are exactly the parsed token
run 2, 5 in source order. -/
theorem bucketsPreserveOrderWitness :
    mW8out.Buckets = (bucketTokens 9 (dW8.NextArg).2).map parsedFloat :=
  (bucketsPreserveOrder 9 dW8 mC7x mW8out dW8out rfl rfl (by decide)).1

/-- An option arm never changes the metric's kind and never clears
AfterResponse: every arm either keeps the field or sets it to true. -/
theorem optionStep_inv (fuel : Nat) (d : Dispenser) (m m1 : Metric) (d1 : Dispenser)
    (h : optionStep fuel d m = Except.ok (m1, d1)) :
    m1.type = m.type ∧ (m.AfterResponse = true → m1.AfterResponse = true) := by
  rw [optionStep] at h
  repeat' split at h
  all_goals simp_all
  all_goals (obtain ⟨h1, h2⟩ := h; subst h1; simp)

/-- The option loop never changes the metric's kind and never clears
AfterResponse. -/
theorem parseOptionsLoop_inv :
    ∀ (fuel : Nat) (d : Dispenser) (m m1 : Metric) (d1 : Dispenser),
      parseOptionsLoop fuel d m = Except.ok (m1, d1) →
      m1.type = m.type ∧ (m.AfterResponse = true → m1.AfterResponse = true) := by
  intro fuel
  induction fuel with
  | zero =>
    intro d m m1 d1 h
    simp [parseOptionsLoop] at h
  | succ n ih =>
    intro d m m1 d1 h
    rw [parseOptionsLoop] at h
    by_cases hv : d.Val = ""
    · rw [if_pos hv] at h
      simp only [Except.ok.injEq, Prod.mk.injEq] at h
      obtain ⟨h1, _⟩ := h
      subst h1
      exact ⟨rfl, fun hh => hh⟩
    · rw [if_neg hv] at h
      cases hs : optionStep n d m with
      | error e => rw [hs] at h; simp at h
      | ok p =>
        obtain ⟨m2, d2⟩ := p
        rw [hs] at h
        simp only at h
        have hstep := optionStep_inv n d m m2 d2 hs
        by_cases hb : (d2.NextBlock 1).1 = true
        · rw [if_pos hb] at h
          have hrec := ih _ _ _ _ h
          exact ⟨hrec.1.trans hstep.1, fun hh => hrec.2 (hstep.2 hh)⟩
        · rw [if_neg hb] at h
          simp only [Except.ok.injEq, Prod.mk.injEq] at h
          obtain ⟨h1, _⟩ := h
          subst h1
          exact hstep

/-- initMetric keeps the requested kind. -/
theorem initMetric_type (t nm : String) : (initMetric t nm).type = t := by
  unfold initMetric
  split <;> rfl

/-- initMetric sets AfterResponse for histograms. -/
theorem initMetric_afterResponse_hist (nm : String) :
    (initMetric MetricTypeHistogram nm).AfterResponse = true := by
  unfold initMetric
  rw [if_pos rfl]

/-- Defaulting the export name changes neither kind nor AfterResponse. -/
theorem exportDefault_type (m : Metric) : (exportDefault m).type = m.type := by
  unfold exportDefault
  split <;> rfl

/-- Defaulting the export name keeps AfterResponse. -/
theorem exportDefault_afterResponse (m : Metric) :
    (exportDefault m).AfterResponse = m.AfterResponse := by
  unfold exportDefault
  split <;> rfl

/-- The top-level metrics loop preserves the histogram-implies-deferred
invariant of the accumulated metric map. -/
theorem parseMetricsLoop_inv :
    ∀ (fuel : Nat) (d : Dispenser) (mm out : List (String × Metric)) (d1 : Dispenser),
      parseMetricsLoop fuel d mm = Except.ok (out, d1) →
      (∀ p ∈ mm, p.2.type = MetricTypeHistogram → p.2.AfterResponse = true) →
      ∀ p ∈ out, p.2.type = MetricTypeHistogram → p.2.AfterResponse = true := by
  intro fuel
  induction fuel with
  | zero =>
    intro d mm out d1 h
    simp [parseMetricsLoop] at h
  | succ n ih =>
    intro d mm out d1 h hmm
    rw [parseMetricsLoop] at h
    by_cases h0 : d.Val = ""
    · rw [if_pos h0] at h
      simp only [Except.ok.injEq, Prod.mk.injEq] at h
      obtain ⟨h1, _⟩ := h
      subst h1
      exact hmm
    · rw [if_neg h0] at h
      by_cases h1 : d.Val = closeCurlyBrace
      · rw [if_pos h1] at h
        simp only [Except.ok.injEq, Prod.mk.injEq] at h
        obtain ⟨he, _⟩ := h
        subst he
        exact hmm
      · rw [if_neg h1] at h
        by_cases h2 : d.Val = MetricTypeCounter ∨ d.Val = MetricTypeHistogram
        · rw [if_pos h2] at h
          by_cases h3 : (d.NextArg).1 = false
          · rw [if_pos h3] at h; simp at h
          · rw [if_neg h3] at h
            by_cases h4 : (d.NextArg).2.Val = ""
            · rw [if_pos h4] at h; simp at h
            · rw [if_neg h4] at h
              by_cases h5 : (((d.NextArg).2.NextBlock 1)).1 = false
              · rw [if_pos h5] at h; simp at h
              · rw [if_neg h5] at h
                cases hopt : parseOptionsLoop n ((d.NextArg).2.NextBlock 1).2
                    (initMetric d.Val ((d.NextArg).2.Val)) with
                | error e => rw [hopt] at h; simp at h
                | ok p =>
                  obtain ⟨m2, d3⟩ := p
                  rw [hopt] at h
                  simp only at h
                  have hstep := parseOptionsLoop_inv n _ _ _ _ hopt
                  have hnew : ∀ p ∈ mm ++ [(m2.Name, exportDefault m2)],
                      p.2.type = MetricTypeHistogram → p.2.AfterResponse = true := by
                    intro p hp ht
                    rcases List.mem_append.mp hp with hp1 | hp2
                    · exact hmm p hp1 ht
                    · have hpe : p = (m2.Name, exportDefault m2) := List.mem_singleton.mp hp2
                      subst hpe
                      rw [exportDefault_type, hstep.1, initMetric_type] at ht
                      rw [exportDefault_afterResponse]
                      apply hstep.2
                      rw [ht, initMetric_afterResponse_hist]
                  by_cases h6 : (List.find? (fun q => q.1 == m2.Name) mm).isSome
                  · rw [if_pos h6] at h; simp at h
                  · rw [if_neg h6] at h
                    by_cases h7 : (d3.Next).1 = true
                    · rw [if_pos h7] at h
                      exact ih _ _ _ _ h hnew
                    · rw [if_neg h7] at h
                      simp only [Except.ok.injEq, Prod.mk.injEq] at h
                      obtain ⟨he, _⟩ := h
                      subst he
                      exact hnew
        · rw [if_neg h2] at h; simp at h

/-- C5: in every successfully parsed meter block, every definition of
kind histogram has AfterResponse (deferred) true, whether or not the
block contained an after_response option. -/
theorem histogramAlwaysDeferred (mm : MeterModule) (d : Dispenser) (out : MeterModule)
    (h : UnmarshalCaddyfile mm d = Except.ok out) :
    ∀ p ∈ out.Metrics, p.2.type = MetricTypeHistogram → p.2.AfterResponse = true := by
  rw [UnmarshalCaddyfile] at h
  by_cases h0 : (d.Next).1 = false
  · rw [if_pos h0] at h; simp at h
  · rw [if_neg h0] at h
    by_cases h1 : (((d.Next).2).NextBlock 0).1 = false
    · rw [if_pos h1] at h; simp at h
    · rw [if_neg h1] at h
      cases hp : parseMetricsLoop (2 * d.tokens.length + 16) (((d.Next).2).NextBlock 0).2
          ({ mm with Metrics := [] } : MeterModule).Metrics with
      | error e => rw [hp] at h; simp at h
      | ok q =>
        obtain ⟨metrics, dx⟩ := q
        rw [hp] at h
        simp only [Except.ok.injEq] at h
        subst h
        intro p hmem ht
        exact parseMetricsLoop_inv _ _ _ _ _ hp (by intro p' hp'; cases hp') p hmem ht

/-- C5 witness: the histogram parsed from dEx5 (which has no
after_response option) is deferred. -/
theorem histogramAlwaysDeferredWitness : mEx5.AfterResponse = true :=
  histogramAlwaysDeferred ⟨[]⟩ dEx5 outEx5 (by decide) ("h1", mEx5)
    (List.mem_singleton.mpr rfl) rfl
